import Mathlib

/-!
Verification of the auth repository's cache layer (key-value cache adapter,
JWT support cache) and refresh-token repository, as a shallow embedding.

The key-value store is modelled as an association list from keys to entries
(value plus optional remaining TTL), together with an optional injected
transport failure standing for a failed round trip to the store.  Go errors
are modelled by their rendered message strings, since the code itself
distinguishes error cases by comparing rendered messages.

The relational store is modelled as a list of rows plus the store clock
(`NOW()`); each repository method takes an optional injected execution
failure standing for a failed SQL round trip.
-/

set_option autoImplicit false

namespace Auth

/-- Entry stored under a key: the value text and the remaining TTL
(`none` means no expiry). -/
structure RedisEntry where
  value : String
  ttl : Option Int
deriving Repr, DecidableEq

/-- State of the key-value store: association list of entries, plus an
optional injected transport failure for the next command. -/
structure Redis where
  entries : List (String × RedisEntry)
  fail : Option String
deriving Repr, DecidableEq

/-- First-match association-list lookup. -/
def kvLookup : List (String × RedisEntry) → String → Option RedisEntry
  | [], _ => none
  | (k, e) :: rest, key => if k = key then some e else kvLookup rest key

/-- Replace the first binding of `key`, or append a new one. -/
def kvSet : List (String × RedisEntry) → String → RedisEntry → List (String × RedisEntry)
  | [], key, e => [(key, e)]
  | (k, e0) :: rest, key, e =>
    if k = key then (key, e) :: rest else (k, e0) :: kvSet rest key e

/-- Remove every binding of `key`. -/
def kvDelete : List (String × RedisEntry) → String → List (String × RedisEntry)
  | [], _ => []
  | (k, e0) :: rest, key =>
    if k = key then kvDelete rest key else (k, e0) :: kvDelete rest key

/-- Base-10 digit accumulation; fails on any non-digit character. -/
def decDigits? (cs : List Char) : Option Nat :=
  cs.foldl (fun acc c =>
    match acc with
    | none => none
    | some n => if c.isDigit then some (n * 10 + (c.toNat - 48)) else none) (some 0)

/-- Signed-body parse used by `parseInt64`: empty bodies fail, and the
result must fit in a signed 64-bit integer. -/
def parseIntCore (cs : List Char) (sign : Int) : Option Int :=
  if cs = [] then none
  else
    match decDigits? cs with
    | none => none
    | some n =>
      if sign * (n : Int) < -(2 ^ 63) ∨ (2 ^ 63 - 1 : Int) < sign * (n : Int) then none
      else some (sign * (n : Int))

/-- Model of Go `strconv.ParseInt(s, 10, 64)` (also of the integer parse the
store applies on increment): optional sign, decimal digits, 64-bit range. -/
def parseInt64 (s : String) : Option Int :=
  match s.data with
  | '+' :: rest => parseIntCore rest 1
  | '-' :: rest => parseIntCore rest (-1)
  | cs => parseIntCore cs 1

/-- One hour in nanoseconds, as Go's `time.Hour`. -/
def timeHour : Int := 3600 * 1000000000

/-- Key prefixes from the cache adapter (`TokenBlacklistPrefix` etc. in the
source; renamed here). -/
def tokenBlacklistPref : String := "blacklist:token:"

/-- Key prefix for user-blacklist entries. -/
def userBlacklistPref : String := "blacklist:user:"

/-- Key prefix for IP-attempt counters. -/
def ipAttemptPref : String := "ip_attempt:"

/-- `redisCache.Set`: stores the value under the key with the given TTL,
wrapping transport failures. Non-positive TTL means no expiry. -/
def redisSet (st : Redis) (key value : String) (ttl : Int) : Except String Redis :=
  match st.fail with
  | some m => .error ("failed to set cache value: " ++ m)
  | none =>
    .ok { st with entries := kvSet st.entries key { value := value, ttl := if 0 < ttl then some ttl else none } }

/-- `redisCache.Get`: returns the stored text; a missing key is reported by
the distinguished message `key not found: <key>`, other failures are wrapped
as `failed to get cache value: <err>`. -/
def redisGet (st : Redis) (key : String) : Except String String :=
  match st.fail with
  | some m => .error ("failed to get cache value: " ++ m)
  | none =>
    match kvLookup st.entries key with
    | none => .error ("key not found: " ++ key)
    | some e => .ok e.value

/-- `redisCache.Delete`: removes the key; absent keys are not an error. -/
def redisDelete (st : Redis) (key : String) : Except String Redis :=
  match st.fail with
  | some m => .error ("failed to delete cache value: " ++ m)
  | none => .ok { st with entries := kvDelete st.entries key }

/-- `redisCache.Exists`: whether the key is currently present. -/
def redisExists (st : Redis) (key : String) : Except String Bool :=
  match st.fail with
  | some m => .error ("failed to check key existence: " ++ m)
  | none => .ok ((kvLookup st.entries key).isSome)

/-- `redisCache.SetNX`: sets only if absent; returns whether the set occurred. -/
def redisSetNX (st : Redis) (key value : String) (ttl : Int) : Except String (Bool × Redis) :=
  match st.fail with
  | some m => .error ("failed to set cache value with SetNX: " ++ m)
  | none =>
    match kvLookup st.entries key with
    | some _ => .ok (false, st)
    | none =>
      .ok (true, { st with entries := kvSet st.entries key { value := value, ttl := if 0 < ttl then some ttl else none } })

/-- Store-side INCR semantics: create at 1 when absent (no TTL), otherwise
parse the held text as a 64-bit integer and add one, keeping the TTL;
non-numeric text or overflow is a command error. -/
def incrCore (st : Redis) (key : String) : Except String (Int × Redis) :=
  match kvLookup st.entries key with
  | none => .ok (1, { st with entries := kvSet st.entries key { value := "1", ttl := none } })
  | some e =>
    match parseInt64 e.value with
    | none => .error "value is not an integer or out of range"
    | some n =>
      if (2 ^ 63 - 1 : Int) ≤ n then .error "increment or decrement would overflow"
      else .ok (n + 1, { st with entries := kvSet st.entries key { value := toString (n + 1), ttl := e.ttl } })

/-- Store-side EXPIRE semantics: set the TTL when the key exists; report
whether a TTL was set. -/
def expireCore (st : Redis) (key : String) (ttl : Int) : Bool × Redis :=
  match kvLookup st.entries key with
  | none => (false, st)
  | some e => (true, { st with entries := kvSet st.entries key { value := e.value, ttl := some ttl } })

/-- `redisCache.Increment`: INCR wrapped with the adapter's error message. -/
def redisIncrement (st : Redis) (key : String) : Except String (Int × Redis) :=
  match st.fail with
  | some m => .error ("failed to increment cache value: " ++ m)
  | none =>
    match incrCore st key with
    | .error m => .error ("failed to increment cache value: " ++ m)
    | .ok r => .ok r

/-- Injected per-command failures for the increment-and-expire pipeline. -/
structure PipeFault where
  incrFault : Option String
  expireFault : Option String
deriving Repr, DecidableEq

/-- A pipeline execution with no injected command failure. -/
def noFault : PipeFault := ⟨none, none⟩

/-- `redisCache.IncrementWithTTL`: queues INCR then EXPIRE in one pipeline.
`Exec` reports the first failed command's error; only when `Exec` and the
increment result both succeed is the post-increment value returned. -/
def redisIncrementWithTTL (f : PipeFault) (st : Redis) (key : String) (ttl : Int) :
    Except String (Int × Redis) :=
  match st.fail with
  | some m => .error ("failed to increment with TTL: " ++ m)
  | none =>
    let incrRes : Except String (Int × Redis) :=
      match f.incrFault with
      | some m => .error m
      | none => incrCore st key
    let st1 : Redis := match incrRes with
      | .ok (_, s) => s
      | .error _ => st
    let expireRes : Except String (Bool × Redis) :=
      match f.expireFault with
      | some m => .error m
      | none => .ok (expireCore st1 key ttl)
    let st2 : Redis := match expireRes with
      | .ok (_, s) => s
      | .error _ => st1
    let execErr : Option String :=
      match incrRes with
      | .error m => some m
      | .ok _ =>
        match expireRes with
        | .error m => some m
        | .ok _ => none
    match execErr with
    | some m => .error ("failed to increment with TTL: " ++ m)
    | none =>
      match incrRes with
      | .error m => .error ("failed to get increment result: " ++ m)
      | .ok (v, _) => .ok (v, st2)

/-- `redisCache.Ping`: liveness check, wrapping transport failure. -/
def redisPing (st : Redis) : Except String Unit :=
  match st.fail with
  | some m => .error ("Redis ping failed: " ++ m)
  | none => .ok ()

/-- `redisCache.Close`: releases the connection; a close failure is wrapped. -/
def redisClose (closeRes : Option String) : Except String Unit :=
  match closeRes with
  | some m => .error ("failed to close Redis connection: " ++ m)
  | none => .ok ()

/-- Token-blacklist key, `blacklist:token:<tokenID>`. -/
def tokenBlacklistKey (tokenID : String) : String := tokenBlacklistPref ++ tokenID

/-- User-blacklist key, `blacklist:user:<userID>`. -/
def userBlacklistKey (userID : String) : String := userBlacklistPref ++ userID

/-- IP-attempt key, `fmt.Sprintf("%s%s:%s", IPAttemptPrefix, userID, ipAddress)`. -/
def ipAttemptKey (userID ipAddress : String) : String :=
  ipAttemptPref ++ userID ++ ":" ++ ipAddress

/-- `jwtCache.BlacklistToken`: computes `ttl = expiresAt - now`; when
`ttl <= 0` it is a no-op returning success, otherwise it writes the
sentinel under the token-blacklist key with that TTL. -/
def BlacklistToken (st : Redis) (now : Int) (tokenID : String) (expiresAt : Int) :
    Except String Redis :=
  let key := tokenBlacklistKey tokenID
  let ttl := expiresAt - now
  if ttl ≤ 0 then .ok st
  else
    match redisSet st key "blacklisted" ttl with
    | .error m => .error ("failed to blacklist token: " ++ m)
    | .ok st2 => .ok st2

/-- `jwtCache.IsTokenBlacklisted`: existence check on the blacklist key. -/
def IsTokenBlacklisted (st : Redis) (tokenID : String) : Except String Bool :=
  match redisExists st (tokenBlacklistKey tokenID) with
  | .error m => .error ("failed to check token blacklist status: " ++ m)
  | .ok b => .ok b

/-- `jwtCache.LogIPAttempt`: increments the per-(user, address) counter with
a fixed 24-hour TTL. -/
def LogIPAttempt (f : PipeFault) (st : Redis) (userID ipAddress : String) :
    Except String Redis :=
  match redisIncrementWithTTL f st (ipAttemptKey userID ipAddress) (24 * timeHour) with
  | .error m => .error ("failed to log IP attempt: " ++ m)
  | .ok (_, st2) => .ok st2

/-- `jwtCache.GetIPAttempts`: reads the counter; the adapter's rendered
`key not found` message is translated to a zero count, any other failure is
wrapped, and non-numeric stored text is a parse error. -/
def GetIPAttempts (st : Redis) (userID ipAddress : String) : Except String Int :=
  let key := ipAttemptKey userID ipAddress
  match redisGet st key with
  | .error e =>
    if e = "key not found: " ++ key then .ok 0
    else .error ("failed to get IP attempts: " ++ e)
  | .ok v =>
    match parseInt64 v with
    | none => .error "failed to parse IP attempts count: invalid syntax"
    | some n => .ok n

/-- `jwtCache.BlacklistUser`: writes the sentinel under the user-blacklist
key with the caller-supplied duration. -/
def BlacklistUser (st : Redis) (userID : String) (duration : Int) : Except String Redis :=
  match redisSet st (userBlacklistKey userID) "blacklisted" duration with
  | .error m => .error ("failed to blacklist user: " ++ m)
  | .ok st2 => .ok st2

/-- `jwtCache.IsUserBlacklisted`: existence check on the user-blacklist key. -/
def IsUserBlacklisted (st : Redis) (userID : String) : Except String Bool :=
  match redisExists st (userBlacklistKey userID) with
  | .error m => .error ("failed to check user blacklist status: " ++ m)
  | .ok b => .ok b

/-- One row of the refresh-token table, after `models.RefreshToken`.
Timestamps are integers on the store's clock. -/
structure RefreshToken where
  id : Nat
  user_id : String
  token_hash : String
  user_agent : String
  ip_address : String
  created_at : Int
  expires_at : Int
  is_used : Bool
  updated_at : Int
deriving Repr, DecidableEq

/-- State of the relational store: the rows and the store clock `NOW()`. -/
structure DB where
  rows : List RefreshToken
  now : Int
deriving Repr, DecidableEq

/-- The `WHERE user_id = $1 AND expires_at > NOW() AND is_used = false`
predicate shared by the two active-token queries. -/
def isActiveFor (db : DB) (userID : String) (t : RefreshToken) : Bool :=
  t.user_id == userID && decide (db.now < t.expires_at) && (t.is_used == false)

/-- Rows selected by the active-token queries, in table order. -/
def activeRows (db : DB) (userID : String) : List RefreshToken :=
  db.rows.filter (isActiveFor db userID)

/-- Insert into a list sorted by `created_at` descending. -/
def insertDesc (t : RefreshToken) : List RefreshToken → List RefreshToken
  | [] => [t]
  | u :: us => if u.created_at ≤ t.created_at then t :: u :: us else u :: insertDesc t us

/-- `ORDER BY created_at DESC` as an insertion sort. -/
def sortByCreatedDesc : List RefreshToken → List RefreshToken
  | [] => []
  | t :: ts => insertDesc t (sortByCreatedDesc ts)

/-- `refreshTokenRepo.GetActiveByUserID`: most recently created active row
for the user; an empty result is the distinguished not-found message, any
execution failure is wrapped as a generic query error. -/
def GetActiveByUserID (fail : Option String) (db : DB) (userID : String) :
    Except String RefreshToken :=
  match fail with
  | some m => .error ("failed to get refresh token: " ++ m)
  | none =>
    match sortByCreatedDesc (activeRows db userID) with
    | [] => .error ("no active refresh token found for user " ++ userID)
    | t :: _ => .ok t

/-- `refreshTokenRepo.GetAllActiveByUserID`: all active rows for the user,
ordered by creation time descending; an empty list is success. -/
def GetAllActiveByUserID (fail : Option String) (db : DB) (userID : String) :
    Except String (List RefreshToken) :=
  match fail with
  | some m => .error ("failed to get active tokens for user " ++ userID ++ ": " ++ m)
  | none => .ok (sortByCreatedDesc (activeRows db userID))

/-- `refreshTokenRepo.MarkAsUsed`: sets `is_used` and refreshes `updated_at`
on the row with the given id; zero affected rows is the distinguished
not-found message. -/
def MarkAsUsed (fail : Option String) (db : DB) (tokenID : Nat) : Except String DB :=
  match fail with
  | some m => .error ("failed to mark token as used: " ++ m)
  | none =>
    if (db.rows.filter (fun t => t.id == tokenID)).length = 0 then
      .error ("token with id " ++ toString tokenID ++ " not found")
    else
      .ok { db with rows := db.rows.map (fun t =>
        if t.id == tokenID then { t with is_used := true, updated_at := db.now } else t) }

/-- `refreshTokenRepo.Delete`: removes the row with the given id; zero
affected rows is the distinguished not-found message. -/
def Delete (fail : Option String) (db : DB) (tokenID : Nat) : Except String DB :=
  match fail with
  | some m => .error ("failed to delete token: " ++ m)
  | none =>
    if (db.rows.filter (fun t => t.id == tokenID)).length = 0 then
      .error ("token with id " ++ toString tokenID ++ " not found")
    else
      .ok { db with rows := db.rows.filter (fun t => !(t.id == tokenID)) }

/-- `refreshTokenRepo.DeleteAllByUserID`: removes every row of the user;
the affected-row count is never inspected. -/
def DeleteAllByUserID (fail : Option String) (db : DB) (userID : String) : Except String DB :=
  match fail with
  | some m => .error ("failed to delete tokens for user " ++ userID ++ ": " ++ m)
  | none => .ok { db with rows := db.rows.filter (fun t => !(t.user_id == userID)) }

/-- `refreshTokenRepo.CleanExpired`: deletes every row with
`expires_at < NOW()` and returns the affected-row count. -/
def CleanExpired (fail : Option String) (db : DB) : Except String (Nat × DB) :=
  match fail with
  | some m => .error ("failed to clean expired tokens: " ++ m)
  | none =>
    .ok ((db.rows.filter (fun t => decide (t.expires_at < db.now))).length,
      { db with rows := db.rows.filter (fun t => !decide (t.expires_at < db.now)) })

/-- Table created by the only migration in the repository
(`CREATE TABLE jwt (...)`). -/
def migrationTableName : String := "jwt"

/-- Columns of the migration-created table, in declaration order. -/
def migrationColumns : List String :=
  ["id", "user_id", "token_hash", "user_agent", "ip_address",
   "created_at", "expires_at", "is_used"]

/-- The table each repository statement reads or writes, transcribed from
the SQL text of each method. -/
def repoStatementTables : List (String × String) :=
  [("Create", "refresh_tokens"),
   ("GetActiveByUserID", "refresh_tokens"),
   ("GetByID", "refresh_tokens"),
   ("MarkAsUsed", "refresh_tokens"),
   ("DeleteAllByUserID", "refresh_tokens"),
   ("Delete", "refresh_tokens"),
   ("CleanExpired", "refresh_tokens"),
   ("GetAllActiveByUserID", "refresh_tokens")]

/-- Modelled from the spec: the column set the specification ascribes to the
single refresh-token table (also the column list of every SELECT statement
in the repository). -/
def specColumns : List String :=
  ["id", "user_id", "token_hash", "user_agent", "ip_address",
   "created_at", "expires_at", "is_used", "updated_at"]

end Auth

namespace Auth

/-! ## Helper lemmas -/

theorem string_ne_of_data_head (a b x y : String) (ca cb : Char)
    (ha : a.data.head? = some ca) (hb : b.data.head? = some cb) (hc : ca ≠ cb) :
    a ++ x ≠ b ++ y := by
  intro h
  have hd : a.data ++ x.data = b.data ++ y.data := by
    have h2 := congrArg String.data h
    simpa [String.data_append] using h2
  cases haa : a.data with
  | nil => rw [haa] at ha; simp at ha
  | cons c cs =>
    cases hbb : b.data with
    | nil => rw [hbb] at hb; simp at hb
    | cons d ds =>
      rw [haa] at ha hd
      rw [hbb] at hb hd
      simp only [List.head?_cons, Option.some.injEq] at ha hb
      apply hc
      rw [← ha, ← hb]
      have h3 := congrArg List.head? hd
      simpa using h3

theorem kvLookup_kvSet (l : List (String × RedisEntry)) (key q : String) (e : RedisEntry) :
    kvLookup (kvSet l key e) q = if key = q then some e else kvLookup l q := by
  induction l with
  | nil => by_cases h : key = q <;> simp [kvSet, kvLookup, h]
  | cons p rest ih =>
    obtain ⟨k0, e0⟩ := p
    by_cases hk : k0 = key
    · subst hk
      by_cases hq : k0 = q <;> simp [kvSet, kvLookup, hq]
    · by_cases hq : k0 = q
      · subst hq
        have hkey : ¬ key = k0 := fun h => hk h.symm
        simp [kvSet, hk, kvLookup, hkey]
      · simp [kvSet, hk, kvLookup, hq, ih]

theorem incrCore_frame (st : Redis) (key : String) (v : Int) (st2 : Redis)
    (h : incrCore st key = .ok (v, st2)) :
    ∀ k, k ≠ key → kvLookup st2.entries k = kvLookup st.entries k := by
  intro k hk
  unfold incrCore at h
  split at h
  · simp only [Except.ok.injEq, Prod.mk.injEq] at h
    rw [← h.2, kvLookup_kvSet, if_neg (Ne.symm hk)]
  · split at h
    · exact absurd h (by simp)
    · split at h
      · exact absurd h (by simp)
      · simp only [Except.ok.injEq, Prod.mk.injEq] at h
        rw [← h.2, kvLookup_kvSet, if_neg (Ne.symm hk)]

theorem expireCore_frame (st : Redis) (key : String) (ttl : Int) :
    ∀ k, k ≠ key → kvLookup ((expireCore st key ttl).2).entries k = kvLookup st.entries k := by
  intro k hk
  unfold expireCore
  cases hl : kvLookup st.entries key with
  | none => simp [hl]
  | some e =>
    simp only [hl]
    rw [kvLookup_kvSet, if_neg (Ne.symm hk)]

theorem incrWithTTL_noFault (st : Redis) (key : String) (ttl : Int) (hf : st.fail = none) :
    redisIncrementWithTTL noFault st key ttl =
      match incrCore st key with
      | .error m => .error ("failed to increment with TTL: " ++ m)
      | .ok (v, stA) => .ok (v, (expireCore stA key ttl).2) := by
  cases hi : incrCore st key with
  | error m => simp [redisIncrementWithTTL, hf, noFault, hi]
  | ok r =>
    obtain ⟨v, stA⟩ := r
    simp [redisIncrementWithTTL, hf, noFault, hi]

theorem incrWithTTL_frame (f : PipeFault) (st : Redis) (key : String) (ttl : Int)
    (v : Int) (st2 : Redis) (h : redisIncrementWithTTL f st key ttl = .ok (v, st2)) :
    ∀ k, k ≠ key → kvLookup st2.entries k = kvLookup st.entries k := by
  intro k hk
  cases hf : st.fail with
  | some m => rw [redisIncrementWithTTL, hf] at h; exact absurd h (by simp)
  | none =>
    obtain ⟨fi, fe⟩ := f
    cases fi with
    | some m => simp [redisIncrementWithTTL, hf] at h
    | none =>
      cases fe with
      | some m =>
        cases hi : incrCore st key with
        | error m2 => simp [redisIncrementWithTTL, hf, hi] at h
        | ok r => obtain ⟨w, stA⟩ := r; simp [redisIncrementWithTTL, hf, hi] at h
      | none =>
        rw [show (⟨none, none⟩ : PipeFault) = noFault from rfl, incrWithTTL_noFault st key ttl hf] at h
        cases hi : incrCore st key with
        | error m2 => rw [hi] at h; exact absurd h (by simp)
        | ok r =>
          obtain ⟨w, stA⟩ := r
          rw [hi] at h
          simp only [Except.ok.injEq, Prod.mk.injEq] at h
          rw [← h.2]
          rw [expireCore_frame stA key ttl k hk]
          exact incrCore_frame st key w stA hi k hk

theorem logIPAttempt_frame (f : PipeFault) (st st2 : Redis) (u ip : String)
    (h : LogIPAttempt f st u ip = .ok st2) :
    ∀ k, k ≠ ipAttemptKey u ip → kvLookup st2.entries k = kvLookup st.entries k := by
  intro k hk
  unfold LogIPAttempt at h
  cases hi : redisIncrementWithTTL f st (ipAttemptKey u ip) (24 * timeHour) with
  | error m => rw [hi] at h; exact absurd h (by simp)
  | ok r =>
    obtain ⟨v, stA⟩ := r
    rw [hi] at h
    simp only [Except.ok.injEq] at h
    rw [← h]
    exact incrWithTTL_frame f st (ipAttemptKey u ip) (24 * timeHour) v stA hi k hk

/-- C4: for every tokenID and every expiresAt at or before the current time,
`BlacklistToken` returns success and performs no cache write, leaving the
state entirely unchanged; for a strictly future expiresAt it writes exactly
one entry, under the token-blacklist key, with TTL equal to the remaining
time until expiry, and touches no other key. -/
theorem c4_blacklist_token_expired_noop (st : Redis) (now : Int) (tid : String) (expTime : Int) :
    (expTime ≤ now → BlacklistToken st now tid expTime = .ok st) ∧
    (now < expTime → st.fail = none →
      ∃ st2, BlacklistToken st now tid expTime = .ok st2 ∧
        kvLookup st2.entries (tokenBlacklistKey tid) =
          some ⟨"blacklisted", some (expTime - now)⟩ ∧
        (∀ k, k ≠ tokenBlacklistKey tid →
          kvLookup st2.entries k = kvLookup st.entries k)) := by
  constructor
  · intro hle
    have httl : expTime - now ≤ 0 := by omega
    simp [BlacklistToken, httl]
  · intro hlt hf
    have httl : ¬ (expTime - now ≤ 0) := by omega
    have hpos : (0 : Int) < expTime - now := by omega
    refine ⟨⟨kvSet st.entries (tokenBlacklistKey tid) ⟨"blacklisted", some (expTime - now)⟩, none⟩,
      ?_, ?_, ?_⟩
    · simp [BlacklistToken, httl, redisSet, hf, hpos]
    · simp [kvLookup_kvSet]
    · intro k hk
      simp [kvLookup_kvSet, if_neg (Ne.symm hk)]

/-- C4 witness: at concrete inputs, an expired token is a no-op and a
future-expiring token writes the blacklist entry with the remaining TTL. -/
theorem c4_blacklist_token_expired_noop_witness :
    BlacklistToken ⟨[("x", ⟨"y", none⟩)], none⟩ 100 "t1" 90 = .ok ⟨[("x", ⟨"y", none⟩)], none⟩ ∧
    ∃ st2, BlacklistToken ⟨[("x", ⟨"y", none⟩)], none⟩ 100 "t1" 150 = .ok st2 ∧
      kvLookup st2.entries (tokenBlacklistKey "t1") = some ⟨"blacklisted", some 50⟩ ∧
      (∀ k, k ≠ tokenBlacklistKey "t1" →
        kvLookup st2.entries k = kvLookup ([("x", ⟨"y", none⟩)] : List (String × RedisEntry)) k) :=
  ⟨(c4_blacklist_token_expired_noop ⟨[("x", ⟨"y", none⟩)], none⟩ 100 "t1" 90).1 (by decide),
   (c4_blacklist_token_expired_noop ⟨[("x", ⟨"y", none⟩)], none⟩ 100 "t1" 150).2 (by decide) rfl⟩

/-- C9: the cache keys used by the JWT facade are exactly
`blacklist:token:` ++ tokenID, `blacklist:user:` ++ userID and
`ip_attempt:` ++ userID ++ `:` ++ ipAddress; each write operation touches no
key other than its own, and each read operation's answer depends only on its
own key. -/
theorem c9_cache_key_formats (st : Redis) (tid uid u ip : String) (now expTime dur : Int) :
    tokenBlacklistKey tid = "blacklist:token:" ++ tid ∧
    userBlacklistKey uid = "blacklist:user:" ++ uid ∧
    ipAttemptKey u ip = "ip_attempt:" ++ u ++ ":" ++ ip ∧
    (∀ st2, BlacklistToken st now tid expTime = .ok st2 →
      ∀ k, k ≠ tokenBlacklistKey tid → kvLookup st2.entries k = kvLookup st.entries k) ∧
    (∀ st2, BlacklistUser st uid dur = .ok st2 →
      ∀ k, k ≠ userBlacklistKey uid → kvLookup st2.entries k = kvLookup st.entries k) ∧
    (∀ f st2, LogIPAttempt f st u ip = .ok st2 →
      ∀ k, k ≠ ipAttemptKey u ip → kvLookup st2.entries k = kvLookup st.entries k) ∧
    (st.fail = none →
      IsTokenBlacklisted st tid = .ok ((kvLookup st.entries (tokenBlacklistKey tid)).isSome)) ∧
    (st.fail = none →
      IsUserBlacklisted st uid = .ok ((kvLookup st.entries (userBlacklistKey uid)).isSome)) ∧
    (∀ st', st.fail = none → st'.fail = none →
      kvLookup st'.entries (ipAttemptKey u ip) = kvLookup st.entries (ipAttemptKey u ip) →
      GetIPAttempts st' u ip = GetIPAttempts st u ip) := by
  refine ⟨rfl, rfl, rfl, ?_, ?_, ?_, ?_, ?_, ?_⟩
  · intro st2 h k hk
    by_cases httl : expTime - now ≤ 0
    · simp [BlacklistToken, httl] at h
      subst h
      rfl
    · cases hf : st.fail with
      | some m => simp [BlacklistToken, httl, redisSet, hf] at h
      | none =>
        simp [BlacklistToken, httl, redisSet, hf] at h
        subst h
        simp [kvLookup_kvSet, if_neg (Ne.symm hk)]
  · intro st2 h k hk
    cases hf : st.fail with
    | some m => simp [BlacklistUser, redisSet, hf] at h
    | none =>
      simp [BlacklistUser, redisSet, hf] at h
      subst h
      simp [kvLookup_kvSet, if_neg (Ne.symm hk)]
  · intro f st2 h k hk
    exact logIPAttempt_frame f st st2 u ip h k hk
  · intro hf
    simp [IsTokenBlacklisted, redisExists, hf]
  · intro hf
    simp [IsUserBlacklisted, redisExists, hf]
  · intro st' h1 h2 hkv
    simp only [GetIPAttempts, redisGet, h1, h2]
    rw [hkv]

/-- C9 witness: concrete instance showing the keys and frame conditions. -/
theorem c9_cache_key_formats_witness :
    tokenBlacklistKey "t" = "blacklist:token:" ++ "t" ∧
    ipAttemptKey "u" "1.2.3.4" = "ip_attempt:" ++ "u" ++ ":" ++ "1.2.3.4" ∧
    IsTokenBlacklisted ⟨[], none⟩ "t" = .ok ((kvLookup ([] : List (String × RedisEntry)) (tokenBlacklistKey "t")).isSome) :=
  ⟨(c9_cache_key_formats ⟨[], none⟩ "t" "u2" "u" "1.2.3.4" 0 0 0).1,
   (c9_cache_key_formats ⟨[], none⟩ "t" "u2" "u" "1.2.3.4" 0 0 0).2.2.1,
   (c9_cache_key_formats ⟨[], none⟩ "t" "u2" "u" "1.2.3.4" 0 0 0).2.2.2.2.2.2.1 rfl⟩

/-- C10: the IP-attempt key construction is not injective: the distinct
pairs (userID `a:b`, ipAddress `c`) and (userID `a`, ipAddress `b:c`)
address the same cache key, so `LogIPAttempt` under the first pair and
`GetIPAttempts` under the second read and write one merged counter. -/
theorem c10_ip_attempt_key_collision :
    ipAttemptKey "a:b" "c" = ipAttemptKey "a" "b:c" ∧
    (("a:b", "c") : String × String) ≠ ("a", "b:c") ∧
    ∃ st : Redis, LogIPAttempt noFault ⟨[], none⟩ "a:b" "c" = .ok st ∧
      GetIPAttempts st "a" "b:c" = .ok 1 := by
  refine ⟨by decide, by decide,
    ⟨[(ipAttemptKey "a:b" "c", ⟨"1", some (24 * timeHour)⟩)], none⟩, ?_, ?_⟩
  · rfl
  · rfl

theorem incrWithTTL_absent (st : Redis) (k : String) (ttl : Int)
    (hf : st.fail = none) (hl : kvLookup st.entries k = none) :
    redisIncrementWithTTL noFault st k ttl =
      .ok (1, ⟨kvSet (kvSet st.entries k ⟨"1", none⟩) k ⟨"1", some ttl⟩, none⟩) := by
  rw [incrWithTTL_noFault st k ttl hf]
  simp [incrCore, hl, expireCore, kvLookup_kvSet, hf]

theorem incrWithTTL_present (st : Redis) (k : String) (ttl : Int) (e : RedisEntry) (n : Int)
    (hf : st.fail = none) (hl : kvLookup st.entries k = some e)
    (hp : parseInt64 e.value = some n) (hn : n < 2 ^ 63 - 1) :
    redisIncrementWithTTL noFault st k ttl =
      .ok (n + 1, ⟨kvSet (kvSet st.entries k ⟨toString (n + 1), e.ttl⟩) k
        ⟨toString (n + 1), some ttl⟩, none⟩) := by
  have hno : ¬ ((9223372036854775807 : Int) ≤ n) := by omega
  rw [incrWithTTL_noFault st k ttl hf]
  simp [incrCore, hl, hp, hno, expireCore, kvLookup_kvSet, hf]

/-- C3: `GetIPAttempts` yields a zero count with no error when the
underlying Get reports the key as not found; any other Get failure is
propagated as an error; a stored text that does not parse as a base-10
integer is a parse error, never a silent zero; and among underlying Get
failures, only key-not-found yields the zero-no-error outcome. -/
theorem c3_get_ip_attempts_absence (st : Redis) (u ip : String) :
    (st.fail = none → kvLookup st.entries (ipAttemptKey u ip) = none →
      GetIPAttempts st u ip = .ok 0) ∧
    (∀ m, st.fail = some m →
      GetIPAttempts st u ip =
        .error ("failed to get IP attempts: " ++ ("failed to get cache value: " ++ m))) ∧
    (∀ e, st.fail = none → kvLookup st.entries (ipAttemptKey u ip) = some e →
      parseInt64 e.value = none →
      GetIPAttempts st u ip = .error "failed to parse IP attempts count: invalid syntax") ∧
    ((∃ msg, redisGet st (ipAttemptKey u ip) = .error msg) →
      GetIPAttempts st u ip = .ok 0 →
      st.fail = none ∧ kvLookup st.entries (ipAttemptKey u ip) = none) := by
  refine ⟨?_, ?_, ?_, ?_⟩
  · intro hf hl
    simp [GetIPAttempts, redisGet, hf, hl]
  · intro m hf
    simp only [GetIPAttempts, redisGet, hf]
    rw [if_neg (string_ne_of_data_head _ _ _ _ 'f' 'k' (by decide) (by decide) (by decide))]
  · intro e hf hl hp
    simp [GetIPAttempts, redisGet, hf, hl, hp]
  · intro hge hok
    cases hf : st.fail with
    | some m =>
      exfalso
      have h2 : GetIPAttempts st u ip =
          .error ("failed to get IP attempts: " ++ ("failed to get cache value: " ++ m)) := by
        simp only [GetIPAttempts, redisGet, hf]
        rw [if_neg (string_ne_of_data_head _ _ _ _ 'f' 'k' (by decide) (by decide) (by decide))]
      rw [h2] at hok
      exact Except.noConfusion hok
    | none =>
      refine ⟨rfl, ?_⟩
      cases hl : kvLookup st.entries (ipAttemptKey u ip) with
      | none => rfl
      | some e =>
        exfalso
        obtain ⟨msg, hmsg⟩ := hge
        simp [redisGet, hf, hl] at hmsg

/-- C3 witness: absent key yields zero, transport failure is propagated,
and a non-numeric stored value is a parse error. -/
theorem c3_get_ip_attempts_absence_witness :
    GetIPAttempts ⟨[], none⟩ "u" "1.2.3.4" = .ok 0 ∧
    GetIPAttempts ⟨[], some "boom"⟩ "u" "1.2.3.4" =
      .error ("failed to get IP attempts: " ++ ("failed to get cache value: " ++ "boom")) ∧
    GetIPAttempts ⟨[(ipAttemptKey "u" "1.2.3.4", ⟨"abc", none⟩)], none⟩ "u" "1.2.3.4" =
      .error "failed to parse IP attempts count: invalid syntax" :=
  ⟨(c3_get_ip_attempts_absence ⟨[], none⟩ "u" "1.2.3.4").1 rfl rfl,
   (c3_get_ip_attempts_absence ⟨[], some "boom"⟩ "u" "1.2.3.4").2.1 "boom" rfl,
   (c3_get_ip_attempts_absence ⟨[(ipAttemptKey "u" "1.2.3.4", ⟨"abc", none⟩)], none⟩
      "u" "1.2.3.4").2.2.1 ⟨"abc", none⟩ rfl rfl (by rfl)⟩

/-- C6: with no failure, `IncrementWithTTL` increments the counter by one
(creating it at 1 when absent), returns the post-increment value, and
(re)applies the given TTL to the key whether or not it pre-existed;
`LogIPAttempt` drives it with the fixed 24-hour TTL, so a successful call
always leaves the attempt key with a fresh 24-hour window. -/
theorem c6_increment_with_ttl_sliding (st : Redis) (k : String) (ttl : Int)
    (hf : st.fail = none) :
    (kvLookup st.entries k = none →
      ∃ st2, redisIncrementWithTTL noFault st k ttl = .ok (1, st2) ∧
        kvLookup st2.entries k = some ⟨"1", some ttl⟩ ∧
        (∀ k2, k2 ≠ k → kvLookup st2.entries k2 = kvLookup st.entries k2)) ∧
    (∀ e n, kvLookup st.entries k = some e → parseInt64 e.value = some n →
      n < 2 ^ 63 - 1 →
      ∃ st2, redisIncrementWithTTL noFault st k ttl = .ok (n + 1, st2) ∧
        kvLookup st2.entries k = some ⟨toString (n + 1), some ttl⟩ ∧
        (∀ k2, k2 ≠ k → kvLookup st2.entries k2 = kvLookup st.entries k2)) ∧
    (∀ u ip, kvLookup st.entries (ipAttemptKey u ip) = none →
      ∃ st2, LogIPAttempt noFault st u ip = .ok st2 ∧
        kvLookup st2.entries (ipAttemptKey u ip) = some ⟨"1", some (24 * timeHour)⟩) ∧
    (∀ u ip e n, kvLookup st.entries (ipAttemptKey u ip) = some e →
      parseInt64 e.value = some n → n < 2 ^ 63 - 1 →
      ∃ st2, LogIPAttempt noFault st u ip = .ok st2 ∧
        kvLookup st2.entries (ipAttemptKey u ip) =
          some ⟨toString (n + 1), some (24 * timeHour)⟩) := by
  refine ⟨?_, ?_, ?_, ?_⟩
  · intro hl
    refine ⟨⟨kvSet (kvSet st.entries k ⟨"1", none⟩) k ⟨"1", some ttl⟩, none⟩, ?_, ?_, ?_⟩
    · exact incrWithTTL_absent st k ttl hf hl
    · simp [kvLookup_kvSet]
    · intro k2 hk2
      simp [kvLookup_kvSet, if_neg (Ne.symm hk2)]
  · intro e n hl hp hn
    refine ⟨⟨kvSet (kvSet st.entries k ⟨toString (n + 1), e.ttl⟩) k
        ⟨toString (n + 1), some ttl⟩, none⟩, ?_, ?_, ?_⟩
    · exact incrWithTTL_present st k ttl e n hf hl hp hn
    · simp [kvLookup_kvSet]
    · intro k2 hk2
      simp [kvLookup_kvSet, if_neg (Ne.symm hk2)]
  · intro u ip hl
    refine ⟨⟨kvSet (kvSet st.entries (ipAttemptKey u ip) ⟨"1", none⟩) (ipAttemptKey u ip)
        ⟨"1", some (24 * timeHour)⟩, none⟩, ?_, ?_⟩
    · simp [LogIPAttempt, incrWithTTL_absent st (ipAttemptKey u ip) (24 * timeHour) hf hl]
    · simp [kvLookup_kvSet]
  · intro u ip e n hl hp hn
    refine ⟨⟨kvSet (kvSet st.entries (ipAttemptKey u ip) ⟨toString (n + 1), e.ttl⟩)
        (ipAttemptKey u ip) ⟨toString (n + 1), some (24 * timeHour)⟩, none⟩, ?_, ?_⟩
    · simp [LogIPAttempt,
        incrWithTTL_present st (ipAttemptKey u ip) (24 * timeHour) e n hf hl hp hn]
    · simp [kvLookup_kvSet]

/-- C6 witness: a fresh key is created at 1 with the TTL applied, and a
second increment on the produced state returns 2 and reapplies the TTL. -/
theorem c6_increment_with_ttl_sliding_witness :
    (∃ st2, redisIncrementWithTTL noFault ⟨[], none⟩ "k" 7 = .ok (1, st2) ∧
      kvLookup st2.entries "k" = some ⟨"1", some 7⟩ ∧
      (∀ k2, k2 ≠ "k" → kvLookup st2.entries k2 = kvLookup ([] : List (String × RedisEntry)) k2)) ∧
    (∃ st2, redisIncrementWithTTL noFault ⟨[("k", ⟨"1", some 3⟩)], none⟩ "k" 7 = .ok (2, st2) ∧
      kvLookup st2.entries "k" = some ⟨toString (2 : Int), some 7⟩ ∧
      (∀ k2, k2 ≠ "k" →
        kvLookup st2.entries k2 = kvLookup [("k", (⟨"1", some 3⟩ : RedisEntry))] k2)) :=
  ⟨(c6_increment_with_ttl_sliding ⟨[], none⟩ "k" 7 rfl).1 rfl,
   (c6_increment_with_ttl_sliding ⟨[("k", ⟨"1", some 3⟩)], none⟩ "k" 7 rfl).2.1
     ⟨"1", some 3⟩ 1 rfl (by rfl) (by decide)⟩

/-- C5: a failed underlying store call surfaces as a non-nil error from
every cache-adapter and JWT-facade operation, the two exceptions being
`BlacklistToken` on an already-expired token (success, no call) and
`GetIPAttempts` on an absent key (zero, no error); in particular a failure
of the expire sub-step inside `IncrementWithTTL` when the increment
succeeded is returned as an error, not swallowed. -/
theorem c5_no_swallowed_errors (st : Redis) (m k v tid uid u ip : String)
    (t now expTime dur : Int) (f : PipeFault) (hfail : st.fail = some m) :
    redisSet st k v t = .error ("failed to set cache value: " ++ m) ∧
    redisGet st k = .error ("failed to get cache value: " ++ m) ∧
    redisDelete st k = .error ("failed to delete cache value: " ++ m) ∧
    redisExists st k = .error ("failed to check key existence: " ++ m) ∧
    redisSetNX st k v t = .error ("failed to set cache value with SetNX: " ++ m) ∧
    redisIncrement st k = .error ("failed to increment cache value: " ++ m) ∧
    redisIncrementWithTTL f st k t = .error ("failed to increment with TTL: " ++ m) ∧
    redisPing st = .error ("Redis ping failed: " ++ m) ∧
    redisClose (some m) = .error ("failed to close Redis connection: " ++ m) ∧
    IsTokenBlacklisted st tid =
      .error ("failed to check token blacklist status: " ++ ("failed to check key existence: " ++ m)) ∧
    IsUserBlacklisted st uid =
      .error ("failed to check user blacklist status: " ++ ("failed to check key existence: " ++ m)) ∧
    BlacklistUser st uid dur =
      .error ("failed to blacklist user: " ++ ("failed to set cache value: " ++ m)) ∧
    (now < expTime → BlacklistToken st now tid expTime =
      .error ("failed to blacklist token: " ++ ("failed to set cache value: " ++ m))) ∧
    LogIPAttempt f st u ip =
      .error ("failed to log IP attempt: " ++ ("failed to increment with TTL: " ++ m)) ∧
    GetIPAttempts st u ip =
      .error ("failed to get IP attempts: " ++ ("failed to get cache value: " ++ m)) ∧
    (expTime ≤ now → BlacklistToken st now tid expTime = .ok st) ∧
    (∀ st2, st2.fail = none → kvLookup st2.entries (ipAttemptKey u ip) = none →
      (∃ msg, redisGet st2 (ipAttemptKey u ip) = .error msg) ∧
      GetIPAttempts st2 u ip = .ok 0) ∧
    (∀ st2 f2 em w, st2.fail = none → f2.incrFault = none → f2.expireFault = some em →
      incrCore st2 k = .ok w →
      redisIncrementWithTTL f2 st2 k t =
        .error ("failed to increment with TTL: " ++ em)) := by
  refine ⟨?_, ?_, ?_, ?_, ?_, ?_, ?_, ?_, ?_, ?_, ?_, ?_, ?_, ?_, ?_, ?_, ?_, ?_⟩
  · simp [redisSet, hfail]
  · simp [redisGet, hfail]
  · simp [redisDelete, hfail]
  · simp [redisExists, hfail]
  · simp [redisSetNX, hfail]
  · simp [redisIncrement, hfail]
  · simp [redisIncrementWithTTL, hfail]
  · simp [redisPing, hfail]
  · simp [redisClose]
  · simp [IsTokenBlacklisted, redisExists, hfail]
  · simp [IsUserBlacklisted, redisExists, hfail]
  · simp [BlacklistUser, redisSet, hfail]
  · intro hlt
    have httl : ¬ (expTime - now ≤ 0) := by omega
    simp [BlacklistToken, httl, redisSet, hfail]
  · simp [LogIPAttempt, redisIncrementWithTTL, hfail]
  · simp only [GetIPAttempts, redisGet, hfail]
    rw [if_neg (string_ne_of_data_head _ _ _ _ 'f' 'k' (by decide) (by decide) (by decide))]
  · intro hle
    have httl : expTime - now ≤ 0 := by omega
    simp [BlacklistToken, httl]
  · intro st2 h1 h2
    constructor
    · exact ⟨"key not found: " ++ ipAttemptKey u ip, by simp [redisGet, h1, h2]⟩
    · simp [GetIPAttempts, redisGet, h1, h2]
  · intro st2 f2 em w h1 h2 h3 h4
    obtain ⟨wv, wst⟩ := w
    simp [redisIncrementWithTTL, h1, h2, h3, h4]

/-- C5 witness: with an injected transport failure every operation errors;
an expired-token blacklist call still succeeds without a store call. -/
theorem c5_no_swallowed_errors_witness :
    redisSet ⟨[], some "boom"⟩ "k" "v" 5 = .error ("failed to set cache value: " ++ "boom") ∧
    BlacklistToken ⟨[], some "boom"⟩ 100 "t" 90 = .ok ⟨[], some "boom"⟩ ∧
    GetIPAttempts ⟨[], none⟩ "u" "9.9.9.9" = .ok 0 ∧
    redisIncrementWithTTL ⟨none, some "expire down"⟩ ⟨[], none⟩ "k" 5 =
      .error ("failed to increment with TTL: " ++ "expire down") :=
  ⟨(c5_no_swallowed_errors ⟨[], some "boom"⟩ "boom" "k" "v" "t" "u2" "u" "9.9.9.9"
      5 100 90 3 noFault rfl).1,
   (c5_no_swallowed_errors ⟨[], some "boom"⟩ "boom" "k" "v" "t" "u2" "u" "9.9.9.9"
      5 100 90 3 noFault rfl).2.2.2.2.2.2.2.2.2.2.2.2.2.2.2.1 (by decide),
   ((c5_no_swallowed_errors ⟨[], some "boom"⟩ "boom" "k" "v" "t" "u2" "u" "9.9.9.9"
      5 100 90 3 noFault rfl).2.2.2.2.2.2.2.2.2.2.2.2.2.2.2.2.1 ⟨[], none⟩ rfl rfl).2,
   (c5_no_swallowed_errors ⟨[], some "boom"⟩ "boom" "k" "v" "t" "u2" "u" "9.9.9.9"
      5 100 90 3 noFault rfl).2.2.2.2.2.2.2.2.2.2.2.2.2.2.2.2.2 ⟨[], none⟩
      ⟨none, some "expire down"⟩ "expire down" (1, ⟨[("k", ⟨"1", none⟩)], none⟩)
      rfl rfl rfl (by rfl)⟩

theorem head_append (a b : String) (c : Char) (h : a.data.head? = some c) :
    (a ++ b).data.head? = some c := by
  rw [String.data_append]
  cases ha : a.data with
  | nil => rw [ha] at h; exact absurd h (by simp)
  | cons x xs => rw [ha] at h; simpa using h

theorem length_filter_not (l : List RefreshToken) (p : RefreshToken → Bool) :
    (l.filter p).length + (l.filter (fun a => !p a)).length = l.length := by
  induction l with
  | nil => rfl
  | cons a l ih => by_cases h : p a <;> simp [List.filter, h] <;> omega

theorem sortDesc_three (t1 t2 t3 : RefreshToken)
    (h12 : t1.created_at < t2.created_at) (h23 : t2.created_at < t3.created_at) :
    sortByCreatedDesc [t1, t2, t3] = [t3, t2, t1] := by
  have e1 : ¬ (t3.created_at ≤ t2.created_at) := by omega
  have e2 : ¬ (t3.created_at ≤ t1.created_at) := by omega
  have e3 : ¬ (t2.created_at ≤ t1.created_at) := by omega
  simp only [sortByCreatedDesc, insertDesc, if_neg e1, if_neg e2, if_neg e3]

/-- C1: the claim asserts a single consistent table; in the code the only
migration creates a table named `jwt` with no `updated_at` column, while
every repository statement targets `refresh_tokens` and its SELECT lists
include `updated_at` — the two cannot be the same table. -/
theorem c1_migration_table_mismatch :
    repoStatementTables.all (fun p => p.2 == "refresh_tokens") = true ∧
    migrationTableName ≠ "refresh_tokens" ∧
    "updated_at" ∉ migrationColumns ∧
    "updated_at" ∈ specColumns ∧
    migrationColumns ≠ specColumns := by decide

/-- C2: with three unused, future-expiring tokens created at T, T+1, T+2
(and no other rows for the user), `GetActiveByUserID` returns the T+2 token
and `GetAllActiveByUserID` returns all three in order T+2, T+1, T; when no
row qualifies, `GetActiveByUserID` fails with the distinguished not-found
message, which differs from every generic query-error message. -/
theorem c2_active_token_ordering (u : String) (T : Int) (db : DB)
    (rs : List RefreshToken) (t1 t2 t3 : RefreshToken)
    (hrows : db.rows = rs ++ [t1, t2, t3])
    (hrs : ∀ t ∈ rs, t.user_id ≠ u)
    (h1u : t1.user_id = u) (h1c : t1.created_at = T) (h1s : t1.is_used = false)
    (h1e : db.now < t1.expires_at)
    (h2u : t2.user_id = u) (h2c : t2.created_at = T + 1) (h2s : t2.is_used = false)
    (h2e : db.now < t2.expires_at)
    (h3u : t3.user_id = u) (h3c : t3.created_at = T + 2) (h3s : t3.is_used = false)
    (h3e : db.now < t3.expires_at) :
    GetActiveByUserID none db u = .ok t3 ∧
    GetAllActiveByUserID none db u = .ok [t3, t2, t1] ∧
    (∀ db2 u2, activeRows db2 u2 = [] →
      GetActiveByUserID none db2 u2 =
        .error ("no active refresh token found for user " ++ u2)) ∧
    (∀ u2 msg, ("no active refresh token found for user " ++ u2) ≠
      ("failed to get refresh token: " ++ msg)) := by
  have hact : activeRows db u = [t1, t2, t3] := by
    unfold activeRows
    rw [hrows, List.filter_append]
    have hnil : rs.filter (isActiveFor db u) = [] :=
      List.filter_eq_nil_iff.mpr (fun t ht => by simp [isActiveFor, hrs t ht])
    rw [hnil]
    simp [isActiveFor, h1u, h1s, h1e, h2u, h2s, h2e, h3u, h3s, h3e]
  have hsort : sortByCreatedDesc [t1, t2, t3] = [t3, t2, t1] :=
    sortDesc_three t1 t2 t3 (by omega) (by omega)
  refine ⟨?_, ?_, ?_, ?_⟩
  · simp [GetActiveByUserID, hact, hsort]
  · simp [GetAllActiveByUserID, hact, hsort]
  · intro db2 u2 h
    simp [GetActiveByUserID, h, sortByCreatedDesc]
  · intro u2 msg
    exact string_ne_of_data_head _ _ _ _ 'n' 'f' (by decide) (by decide) (by decide)

/-- C2 witness: a concrete table with an unrelated row and three tokens for
`user-1` created at 0, 1, 2. -/
theorem c2_active_token_ordering_witness :
    GetActiveByUserID none
      ⟨[⟨4, "other", "h", "a", "i", 5, 100, false, 0⟩,
        ⟨1, "user-1", "h1", "a", "i", 0, 100, false, 0⟩,
        ⟨2, "user-1", "h2", "a", "i", 1, 100, false, 0⟩,
        ⟨3, "user-1", "h3", "a", "i", 2, 100, false, 0⟩], 0⟩ "user-1" =
      .ok ⟨3, "user-1", "h3", "a", "i", 2, 100, false, 0⟩ ∧
    GetAllActiveByUserID none
      ⟨[⟨4, "other", "h", "a", "i", 5, 100, false, 0⟩,
        ⟨1, "user-1", "h1", "a", "i", 0, 100, false, 0⟩,
        ⟨2, "user-1", "h2", "a", "i", 1, 100, false, 0⟩,
        ⟨3, "user-1", "h3", "a", "i", 2, 100, false, 0⟩], 0⟩ "user-1" =
      .ok [⟨3, "user-1", "h3", "a", "i", 2, 100, false, 0⟩,
        ⟨2, "user-1", "h2", "a", "i", 1, 100, false, 0⟩,
        ⟨1, "user-1", "h1", "a", "i", 0, 100, false, 0⟩] :=
  ⟨(c2_active_token_ordering "user-1" 0 _ [⟨4, "other", "h", "a", "i", 5, 100, false, 0⟩]
      ⟨1, "user-1", "h1", "a", "i", 0, 100, false, 0⟩
      ⟨2, "user-1", "h2", "a", "i", 1, 100, false, 0⟩
      ⟨3, "user-1", "h3", "a", "i", 2, 100, false, 0⟩
      rfl (by decide) rfl rfl rfl (by decide) rfl rfl rfl (by decide)
      rfl rfl rfl (by decide)).1,
   (c2_active_token_ordering "user-1" 0 _ [⟨4, "other", "h", "a", "i", 5, 100, false, 0⟩]
      ⟨1, "user-1", "h1", "a", "i", 0, 100, false, 0⟩
      ⟨2, "user-1", "h2", "a", "i", 1, 100, false, 0⟩
      ⟨3, "user-1", "h3", "a", "i", 2, 100, false, 0⟩
      rfl (by decide) rfl rfl rfl (by decide) rfl rfl rfl (by decide)
      rfl rfl rfl (by decide)).2.1⟩

/-- C7: `CleanExpired` removes exactly the rows with `expires_at` strictly
before the store clock, returns their count, keeps every other row, and an
immediately repeated call removes nothing and returns 0. -/
theorem c7_clean_expired_exact_idempotent (db : DB) :
    ∃ n db2,
      CleanExpired none db = .ok (n, db2) ∧
      n = (db.rows.filter (fun t => decide (t.expires_at < db.now))).length ∧
      (∀ t ∈ db.rows, t.expires_at < db.now → t ∉ db2.rows) ∧
      (∀ t ∈ db.rows, ¬ t.expires_at < db.now → t ∈ db2.rows) ∧
      (∀ t ∈ db2.rows, t ∈ db.rows ∧ ¬ t.expires_at < db.now) ∧
      n + db2.rows.length = db.rows.length ∧
      db2.now = db.now ∧
      CleanExpired none db2 = .ok (0, db2) := by
  refine ⟨(db.rows.filter (fun t => decide (t.expires_at < db.now))).length,
    ⟨db.rows.filter (fun t => !decide (t.expires_at < db.now)), db.now⟩,
    ?_, rfl, ?_, ?_, ?_, ?_, rfl, ?_⟩
  · rfl
  · intro t ht hexp
    simp [List.mem_filter, hexp]
  · intro t ht hexp
    simp [List.mem_filter, ht, hexp]
  · intro t ht
    have h2 := List.mem_filter.mp ht
    refine ⟨h2.1, ?_⟩
    have h3 := h2.2
    simpa using h3
  · exact length_filter_not db.rows (fun t => decide (t.expires_at < db.now))
  · simp only [CleanExpired, List.filter_filter]
    simp

/-- C7 witness: a table holding one expired and one live row. -/
theorem c7_clean_expired_exact_idempotent_witness :
    ∃ n db2,
      CleanExpired none ⟨[⟨1, "u", "h", "a", "i", 0, 5, false, 0⟩,
        ⟨2, "u", "h", "a", "i", 0, 20, false, 0⟩], 10⟩ = .ok (n, db2) ∧
      n = (([⟨1, "u", "h", "a", "i", 0, 5, false, 0⟩,
        ⟨2, "u", "h", "a", "i", 0, 20, false, 0⟩] : List RefreshToken).filter
          (fun t => decide (t.expires_at < 10))).length ∧
      (∀ t ∈ ([⟨1, "u", "h", "a", "i", 0, 5, false, 0⟩,
        ⟨2, "u", "h", "a", "i", 0, 20, false, 0⟩] : List RefreshToken),
        t.expires_at < 10 → t ∉ db2.rows) ∧
      (∀ t ∈ ([⟨1, "u", "h", "a", "i", 0, 5, false, 0⟩,
        ⟨2, "u", "h", "a", "i", 0, 20, false, 0⟩] : List RefreshToken),
        ¬ t.expires_at < 10 → t ∈ db2.rows) ∧
      (∀ t ∈ db2.rows, t ∈ ([⟨1, "u", "h", "a", "i", 0, 5, false, 0⟩,
        ⟨2, "u", "h", "a", "i", 0, 20, false, 0⟩] : List RefreshToken) ∧
        ¬ t.expires_at < 10) ∧
      n + db2.rows.length = 2 ∧
      db2.now = 10 ∧
      CleanExpired none db2 = .ok (0, db2) :=
  c7_clean_expired_exact_idempotent ⟨[⟨1, "u", "h", "a", "i", 0, 5, false, 0⟩,
    ⟨2, "u", "h", "a", "i", 0, 20, false, 0⟩], 10⟩

/-- C8: `MarkAsUsed` and `Delete` fail with the distinguished not-found
message exactly when the statement executes but affects zero rows, which
differs from every wrapped execution-error message; `DeleteAllByUserID`
succeeds even when it deletes nothing. -/
theorem c8_zero_rows_distinction (db : DB) (tokenID : Nat) (userID : String) (m : String) :
    ((db.rows.filter (fun t => t.id == tokenID)).length = 0 →
      MarkAsUsed none db tokenID =
        .error ("token with id " ++ toString tokenID ++ " not found") ∧
      Delete none db tokenID =
        .error ("token with id " ++ toString tokenID ++ " not found")) ∧
    ((db.rows.filter (fun t => t.id == tokenID)).length ≠ 0 →
      (∃ db2, MarkAsUsed none db tokenID = .ok db2) ∧
      (∃ db2, Delete none db tokenID = .ok db2)) ∧
    MarkAsUsed (some m) db tokenID = .error ("failed to mark token as used: " ++ m) ∧
    Delete (some m) db tokenID = .error ("failed to delete token: " ++ m) ∧
    (∀ id2 : Nat, ("token with id " ++ toString id2 ++ " not found") ≠
      ("failed to mark token as used: " ++ m)) ∧
    (∀ id2 : Nat, ("token with id " ++ toString id2 ++ " not found") ≠
      ("failed to delete token: " ++ m)) ∧
    (∃ db2, DeleteAllByUserID none db userID = .ok db2) ∧
    ((∀ t ∈ db.rows, t.user_id ≠ userID) → DeleteAllByUserID none db userID = .ok db) := by
  refine ⟨?_, ?_, ?_, ?_, ?_, ?_, ?_, ?_⟩
  · intro h
    exact ⟨by simp [MarkAsUsed, h], by simp [Delete, h]⟩
  · intro h
    refine ⟨⟨⟨db.rows.map (fun t =>
        if t.id == tokenID then { t with is_used := true, updated_at := db.now } else t),
        db.now⟩, ?_⟩,
      ⟨⟨db.rows.filter (fun t => !(t.id == tokenID)), db.now⟩, ?_⟩⟩
    · simp [MarkAsUsed, h]
    · simp [Delete, h]
  · simp [MarkAsUsed]
  · simp [Delete]
  · intro id2
    exact string_ne_of_data_head ("token with id " ++ toString id2) _ " not found" m 't' 'f'
      (head_append _ _ 't' (by decide)) (by decide) (by decide)
  · intro id2
    exact string_ne_of_data_head ("token with id " ++ toString id2) _ " not found" m 't' 'f'
      (head_append _ _ 't' (by decide)) (by decide) (by decide)
  · exact ⟨_, rfl⟩
  · intro hall
    have hself : db.rows.filter (fun t => !(t.user_id == userID)) = db.rows :=
      List.filter_eq_self.mpr (fun t ht => by simp [hall t ht])
    simp [DeleteAllByUserID, hself]

/-- C8 witness: an unknown id yields the not-found message while deleting
all rows of an absent user succeeds unchanged. -/
theorem c8_zero_rows_distinction_witness :
    (MarkAsUsed none ⟨[⟨1, "u", "h", "a", "i", 0, 5, false, 0⟩], 10⟩ 2 =
      .error ("token with id " ++ toString (2 : Nat) ++ " not found") ∧
     Delete none ⟨[⟨1, "u", "h", "a", "i", 0, 5, false, 0⟩], 10⟩ 2 =
      .error ("token with id " ++ toString (2 : Nat) ++ " not found")) ∧
    DeleteAllByUserID none ⟨[⟨1, "u", "h", "a", "i", 0, 5, false, 0⟩], 10⟩ "nobody" =
      .ok ⟨[⟨1, "u", "h", "a", "i", 0, 5, false, 0⟩], 10⟩ :=
  ⟨(c8_zero_rows_distinction ⟨[⟨1, "u", "h", "a", "i", 0, 5, false, 0⟩], 10⟩ 2 "nobody"
      "e").1 (by decide),
   (c8_zero_rows_distinction ⟨[⟨1, "u", "h", "a", "i", 0, 5, false, 0⟩], 10⟩ 2 "nobody"
      "e").2.2.2.2.2.2.2 (by decide)⟩

end Auth
